import Mathlib

/-!
Verification of go-cake-autortt (src/service.go, src/main.go) against its
natural-language specification. Go code is shallowly embedded: RTT values are
exact rationals standing for the float64 fractional-millisecond values, the
injectable probe function mirrors the ProbeFunc test seam, and stateful code
is modelled by explicit state passing. Go int conversion and channel plumbing
are made explicit where they matter.
-/

namespace CakeAutoRTT

/-- Errors produced by the Go function measureRTTTCP (src/service.go:254-323).
The Go code returns formatted untyped errors; the constructors mirror its three
distinct failure paths: the empty-input error ("no hosts to measure"), the
insufficient-responders error ("not enough responding hosts"), and the
out-of-bounds slice access that would panic if the success slice were empty
while minHosts is zero. -/
inductive MeasureError where
  | noHosts : MeasureError
  | notEnoughHosts (alive minHosts : Nat) : MeasureError
  | emptySlicePanic : MeasureError
deriving DecidableEq

/-- Recogniser for the insufficient-responders error constructor. -/
def MeasureError.isInsufficient : MeasureError → Bool
  | .notEnoughHosts _ _ => true
  | _ => false

/-- Result triple of measureRTTTCP: the measured RTT in fractional
milliseconds, the number of hosts that answered, and the error slot
(none on success). -/
structure MeasureOutcome where
  rtt : ℚ
  alive : Nat
  err : Option MeasureError
deriving DecidableEq

/-- Successful RTT samples in fractional milliseconds, in host order, as
collected by the result loop of measureRTTTCP (src/service.go:286-299): probes
returning an error are skipped, successful probes contribute their sample. -/
def validRTTs (probe : String → Except String ℚ) (hosts : List String) : List ℚ :=
  hosts.filterMap fun h => (probe h).toOption

/-- Shallow embedding of measureRTTTCP (src/service.go:254-323). The probe
function abstracts the per-host TCP probe (the injectable ProbeFunc seam used
by the unit tests). All hosts are probed, successes are counted, then either
the insufficient-responders error is returned together with the alive count,
or the success list is sorted and its last element (the worst RTT) is returned
with the alive count and no error. The arithmetic mean that the Go code also
computes feeds only a debug log line; avgRTTDiag below reproduces it. -/
def measureRTTTCP (minHosts : Nat) (probe : String → Except String ℚ)
    (hosts : List String) : MeasureOutcome :=
  if hosts.isEmpty then ⟨0, 0, some .noHosts⟩
  else if (validRTTs probe hosts).length < minHosts then
    ⟨0, (validRTTs probe hosts).length,
      some (.notEnoughHosts (validRTTs probe hosts).length minHosts)⟩
  else
    match ((validRTTs probe hosts).insertionSort (· ≤ ·)).getLast? with
    | none => ⟨0, (validRTTs probe hosts).length, some .emptySlicePanic⟩
    | some worst => ⟨worst, (validRTTs probe hosts).length, none⟩

/-- The arithmetic mean of the successful samples, which measureRTTTCP computes
only for its debug log line (src/service.go:310-320); it is never returned. -/
def avgRTTDiag (probe : String → Except String ℚ) (hosts : List String) : ℚ :=
  (validRTTs probe hosts).sum / (validRTTs probe hosts).length

/-- In a list sorted by the ≤ relation, every member is at most the last
element. -/
lemma sorted_le_getLast {l : List ℚ} (hs : l.Sorted (· ≤ ·)) (hne : l ≠ []) :
    ∀ b ∈ l, b ≤ l.getLast hne := by
  intro b hb
  obtain ⟨i, hi⟩ := List.mem_iff_get.mp hb
  rw [List.getLast_eq_get]
  subst hi
  rcases eq_or_lt_of_le (Nat.le_pred_of_lt i.isLt) with h | h
  · have hfin : i = (⟨l.length - 1, by omega⟩ : Fin l.length) := Fin.ext h
    rw [hfin]
  · exact hs.rel_get_of_lt (by simpa using h)

/-- The last element of the ascending insertion sort of a list is the list's
maximum. -/
lemma maximum_eq_insertionSort_getLast (l : List ℚ)
    (hne : l.insertionSort (· ≤ ·) ≠ []) :
    l.maximum = ((l.insertionSort (· ≤ ·)).getLast hne : WithBot ℚ) := by
  have hperm := List.perm_insertionSort (α := ℚ) (· ≤ ·) l
  apply List.maximum_eq_coe_iff.mpr
  constructor
  · exact hperm.subset (List.getLast_mem hne)
  · intro b hb
    exact sorted_le_getLast (List.sorted_insertionSort _ l) hne b (hperm.mem_iff.mpr hb)

/-- C1: for every non-empty host list whose probes yield at least minHosts
successful RTT samples, measureRTTTCP returns no error, the count of
successful hosts, and as its RTT the maximum of the successful samples in
fractional milliseconds (the mean is only diagnostic and is not the value
returned). -/
theorem measureRTTTCP_returns_worst_rtt (minHosts : Nat)
    (probe : String → Except String ℚ) (hosts : List String)
    (hne : hosts ≠ [])
    (hmin : minHosts ≤ (validRTTs probe hosts).length)
    (hpos : 0 < (validRTTs probe hosts).length) :
    (measureRTTTCP minHosts probe hosts).err = none ∧
    (measureRTTTCP minHosts probe hosts).alive = (validRTTs probe hosts).length ∧
    (validRTTs probe hosts).maximum
      = ((measureRTTTCP minHosts probe hosts).rtt : WithBot ℚ) := by
  have hvne : validRTTs probe hosts ≠ [] := by
    intro h
    rw [h] at hpos
    simp at hpos
  have hperm := List.perm_insertionSort (α := ℚ) (· ≤ ·) (validRTTs probe hosts)
  have hsne : (validRTTs probe hosts).insertionSort (· ≤ ·) ≠ [] := by
    intro h
    rw [h] at hperm
    exact hvne hperm.symm.eq_nil
  have hlast := List.getLast?_eq_getLast _ hsne
  rw [measureRTTTCP, if_neg (by simpa [List.isEmpty_iff] using hne),
    if_neg (by omega), hlast]
  exact ⟨rfl, rfl, maximum_eq_insertionSort_getLast _ hsne⟩

/-- Probe from the unit test TestMeasureRTTTCPWithMockProbe: h1 answers in
10ms, h3 answers in 50ms, every other host is unreachable. -/
def mockProbe : String → Except String ℚ := fun h =>
  if h = "h1" then .ok 10 else if h = "h3" then .ok 50 else .error "unreachable"

/-- Witness for C1 at the spec's own example: hosts h1 (10ms), h2 (failure),
h3 (50ms) with minHosts 1 give two alive hosts, no error, and the worst RTT. -/
theorem measureRTTTCP_returns_worst_rtt_witness :
    (["h1", "h2", "h3"] : List String) ≠ [] ∧
    1 ≤ (validRTTs mockProbe ["h1", "h2", "h3"]).length ∧
    0 < (validRTTs mockProbe ["h1", "h2", "h3"]).length ∧
    ((measureRTTTCP 1 mockProbe ["h1", "h2", "h3"]).err = none ∧
     (measureRTTTCP 1 mockProbe ["h1", "h2", "h3"]).alive
       = (validRTTs mockProbe ["h1", "h2", "h3"]).length ∧
     (validRTTs mockProbe ["h1", "h2", "h3"]).maximum
       = ((measureRTTTCP 1 mockProbe ["h1", "h2", "h3"]).rtt : WithBot ℚ)) :=
  ⟨by decide, by decide, by decide,
    measureRTTTCP_returns_worst_rtt 1 mockProbe ["h1", "h2", "h3"]
      (by decide) (by decide) (by decide)⟩

/-- Sanity check mirroring TestMeasureRTTTCPWithMockProbe: the aggregate result
is exactly (50, 2, no error). -/
theorem measureRTTTCP_unit_test_vector :
    measureRTTTCP 1 mockProbe ["h1", "h2", "h3"] = ⟨50, 2, none⟩ := by decide

/-- Sanity check that the diagnostic mean (30ms here) differs from the
propagated value (50ms): the mean is never what measureRTTTCP returns. -/
theorem measureRTTTCP_mean_not_propagated :
    avgRTTDiag mockProbe ["h1", "h2", "h3"] = 30 ∧
    (measureRTTTCP 1 mockProbe ["h1", "h2", "h3"]).rtt ≠ 30 := by
  constructor
  · have h : validRTTs mockProbe ["h1", "h2", "h3"] = [10, 50] := by decide
    rw [avgRTTDiag, h]
    norm_num
  · decide

/-- Probe in which every host is unreachable (TestMeasureRTTTCPAllFail). -/
def failProbe : String → Except String ℚ := fun _ => .error "down"

/-- Counterexample for C3 as stated: on the empty host list (which trivially
yields fewer than minHosts = 1 successes) measureRTTTCP returns the distinct
"no hosts to measure" error of src/service.go:255-257, not the
insufficient-responders error of src/service.go:303-306; the alive count 0 is
still returned. -/
theorem measureRTTTCP_empty_list_not_insufficient :
    (measureRTTTCP 1 failProbe []).err = some MeasureError.noHosts ∧
    (measureRTTTCP 1 failProbe []).alive = 0 ∧
    MeasureError.noHosts.isInsufficient = false := by decide

/-- C3 (amended to non-empty host lists): for every non-empty host list whose
probes yield fewer than minHosts successes, measureRTTTCP returns the
insufficient-responders error and, alongside it, the exact count of live
successes. -/
theorem measureRTTTCP_insufficient_returns_count (minHosts : Nat)
    (probe : String → Except String ℚ) (hosts : List String)
    (hne : hosts ≠ [])
    (hlt : (validRTTs probe hosts).length < minHosts) :
    (measureRTTTCP minHosts probe hosts).err
      = some (MeasureError.notEnoughHosts (validRTTs probe hosts).length minHosts) ∧
    (measureRTTTCP minHosts probe hosts).alive = (validRTTs probe hosts).length := by
  rw [measureRTTTCP, if_neg (by simpa [List.isEmpty_iff] using hne), if_pos hlt]
  exact ⟨rfl, rfl⟩

/-- Witness for the amended C3 at the unit test TestMeasureRTTTCPAllFail: two
hosts, all probes fail, minHosts 1: the insufficient-responders error carries
the live count 0. -/
theorem measureRTTTCP_insufficient_returns_count_witness :
    (["a", "b"] : List String) ≠ [] ∧
    (validRTTs failProbe ["a", "b"]).length < 1 ∧
    ((measureRTTTCP 1 failProbe ["a", "b"]).err
      = some (MeasureError.notEnoughHosts (validRTTs failProbe ["a", "b"]).length 1) ∧
     (measureRTTTCP 1 failProbe ["a", "b"]).alive
      = (validRTTs failProbe ["a", "b"]).length) :=
  ⟨by decide, by decide,
    measureRTTTCP_insufficient_returns_count 1 failProbe ["a", "b"]
      (by decide) (by decide)⟩

/-- Modelled from the spec: computeAdaptiveTarget, the Concurrency Controller's
threshold policy (spec sections 4.3 and 8). The implementation is missing from
the sources; only its unit test TestComputeAdaptiveTarget
(src/service_adaptive_integration_test.go:58-80) and the spec describe it.
Per the spec words: utilization above 80 percent shrinks the worker count to
floor(current * 0.7) floored at 1; utilization below 30 percent grows it to
floor(current * 1.1) + 1 capped at cfgMax; otherwise the count is unchanged. -/
def computeAdaptiveTarget (current cfgMax : Nat) (u : ℚ) : Nat :=
  if 80 < u then max 1 (Int.toNat ⌊(current : ℚ) * (7 / 10)⌋)
  else if u < 30 then min cfgMax (Int.toNat ⌊(current : ℚ) * (11 / 10)⌋ + 1)
  else current

/-- Scaling a natural number by 0.7 and flooring agrees with natural division
by ten after multiplying by seven. -/
lemma toNat_floor_seven_tenths (c : Nat) :
    (⌊(c : ℚ) * (7 / 10)⌋).toNat = 7 * c / 10 := by
  have h : (c : ℚ) * (7 / 10) = ((7 * c : ℕ) : ℚ) / ((10 : ℕ) : ℚ) := by
    push_cast
    ring
  rw [h, Rat.floor_natCast_div_natCast, ← Int.natCast_div, Int.toNat_natCast]

/-- Scaling a natural number by 1.1 and flooring agrees with natural division
by ten after multiplying by eleven. -/
lemma toNat_floor_eleven_tenths (c : Nat) :
    (⌊(c : ℚ) * (11 / 10)⌋).toNat = 11 * c / 10 := by
  have h : (c : ℚ) * (11 / 10) = ((11 * c : ℕ) : ℚ) / ((10 : ℕ) : ℚ) := by
    push_cast
    ring
  rw [h, Rat.floor_natCast_div_natCast, ← Int.natCast_div, Int.toNat_natCast]

/-- C2: the concurrency controller's target computation. Above 80 percent
utilization the target is max(1, floor(current * 0.7)); below 30 percent it is
min(cfgMax, floor(current * 1.1) + 1); in between the current count is kept.
The floors are expressed through exact natural division. -/
theorem computeAdaptiveTarget_policy (current cfgMax : Nat) (u : ℚ) :
    (80 < u → computeAdaptiveTarget current cfgMax u = max 1 (7 * current / 10)) ∧
    (u < 30 → computeAdaptiveTarget current cfgMax u
        = min cfgMax (11 * current / 10 + 1)) ∧
    (30 ≤ u → u ≤ 80 → computeAdaptiveTarget current cfgMax u = current) := by
  refine ⟨fun h => ?_, fun h => ?_, fun h1 h2 => ?_⟩
  · rw [computeAdaptiveTarget, if_pos h, toNat_floor_seven_tenths]
  · rw [computeAdaptiveTarget, if_neg (by linarith), if_pos h,
      toNat_floor_eleven_tenths]
  · rw [computeAdaptiveTarget, if_neg (by linarith), if_neg (by linarith)]

/-- Witness for C2 at the unit test vectors of TestComputeAdaptiveTarget:
utilization 85 with 100 workers, utilization 10 with 10 workers, and the
no-change band at utilization 50. -/
theorem computeAdaptiveTarget_policy_witness :
    ((80 : ℚ) < 85 ∧ computeAdaptiveTarget 100 200 85 = max 1 (7 * 100 / 10)) ∧
    ((10 : ℚ) < 30 ∧ computeAdaptiveTarget 10 200 10 = min 200 (11 * 10 / 10 + 1)) ∧
    ((30 : ℚ) ≤ 50 ∧ (50 : ℚ) ≤ 80 ∧ computeAdaptiveTarget 100 200 50 = 100) :=
  ⟨⟨by decide, (computeAdaptiveTarget_policy 100 200 85).1 (by decide)⟩,
   ⟨by decide, (computeAdaptiveTarget_policy 10 200 10).2.1 (by decide)⟩,
   ⟨by decide, by decide,
     (computeAdaptiveTarget_policy 100 200 50).2.2 (by decide) (by decide)⟩⟩

/-- Sanity check against the remaining vectors of TestComputeAdaptiveTarget:
a single worker under very high load stays at 1, and growth clamps at the
configured maximum. -/
theorem computeAdaptiveTarget_unit_test_vectors :
    computeAdaptiveTarget 1 100 95 = 1 ∧ computeAdaptiveTarget 190 200 10 = 200 := by
  constructor
  · rw [computeAdaptiveTarget, if_pos (by norm_num), toNat_floor_seven_tenths]
    decide
  · rw [computeAdaptiveTarget, if_neg (by norm_num), if_pos (by norm_num),
      toNat_floor_eleven_tenths]
    decide

deriving instance DecidableEq for Except

/-- The fixed port order tried by measureSingleHostTCP (src/service.go:328). -/
def tcpPorts : List String := ["80", "443", "22", "21", "25", "53"]

/-- The port loop of measureSingleHostTCP (src/service.go:332-342): dial
abstracts net.DialTimeout and yields the elapsed time of a successful connect
or the dial error; the shared timeout is passed to every attempt; each failed
attempt's error is discarded and after the loop the fresh error
"no reachable ports found" is returned. -/
def dialPorts (dial : String → String → Nat → Except String ℚ) (host : String)
    (timeoutSec : Nat) : List String → Except String ℚ
  | [] => .error "no reachable ports found"
  | p :: ps =>
    match dial host p timeoutSec with
    | .ok elapsed => .ok elapsed
    | .error _ => dialPorts dial host timeoutSec ps

/-- Shallow embedding of measureSingleHostTCP (src/service.go:326-343). -/
def measureSingleHostTCP (dial : String → String → Nat → Except String ℚ)
    (timeoutSec : Nat) (host : String) : Except String ℚ :=
  dialPorts dial host timeoutSec tcpPorts

/-- Dial in which every port refuses, each attempt failing with an error that
names the port, so the last attempt's error is "53". -/
def dialRefuseAll : String → String → Nat → Except String ℚ :=
  fun _ p _ => .error p

/-- Counterexample for C6 as stated: when every port attempt fails, the host
is failed with the fresh generic error of src/service.go:342, not with the
last attempt's error ("53" here). -/
theorem measureSingleHostTCP_not_last_error :
    measureSingleHostTCP dialRefuseAll 3 "h" = .error "no reachable ports found" ∧
    measureSingleHostTCP dialRefuseAll 3 "h" ≠ .error "53" := by decide

/-- The port loop returns the first successful attempt's elapsed time, in list
order, and the generic error when every attempt fails. -/
lemma dialPorts_eq_findSome (dial : String → String → Nat → Except String ℚ)
    (host : String) (timeoutSec : Nat) (ports : List String) :
    dialPorts dial host timeoutSec ports =
      match ports.findSome? (fun p => (dial host p timeoutSec).toOption) with
      | some elapsed => .ok elapsed
      | none => .error "no reachable ports found" := by
  induction ports with
  | nil => rfl
  | cons p ps ih =>
    cases h : dial host p timeoutSec with
    | ok elapsed => simp [dialPorts, List.findSome?_cons, h, Except.toOption]
    | error e => simp [dialPorts, List.findSome?_cons, h, Except.toOption, ih]

/-- C6 (amended): a single probe attempts TCP connects against the ports
80, 443, 22, 21, 25, 53 in that fixed order, every attempt sharing the same
timeout, and returns the elapsed time of the first successful connection as
the host's RTT; if every port attempt fails it returns the generic
"no reachable ports found" error (the individual attempts' errors are
discarded, so the last error is not propagated). -/
theorem measureSingleHostTCP_first_success
    (dial : String → String → Nat → Except String ℚ)
    (timeoutSec : Nat) (host : String) :
    measureSingleHostTCP dial timeoutSec host =
      match tcpPorts.findSome? (fun p => (dial host p timeoutSec).toOption) with
      | some elapsed => .ok elapsed
      | none => .error "no reachable ports found" :=
  dialPorts_eq_findSome dial host timeoutSec tcpPorts

/-- Sanity check of the port order: when only port 22 answers the host's RTT
is its elapsed time, and when both 443 and 22 answer the earlier port in the
fixed order wins. -/
theorem measureSingleHostTCP_order_vectors :
    measureSingleHostTCP (fun _ p _ => if p = "22" then .ok 7 else .error p) 3 "h"
      = .ok 7 ∧
    measureSingleHostTCP
      (fun _ p _ => if p = "443" then .ok 5 else if p = "22" then .ok 7 else .error p)
      3 "h" = .ok 5 := by decide

/-- The configuration fields of src/main.go used by the measurement cycle. -/
structure Config where
  minHosts : Nat
  maxHosts : Nat
  rttMarginPercent : Int
  defaultRTTMs : Int
  dlInterface : String
  ulInterface : String
deriving DecidableEq

/-- Go's int(x) conversion of a float64: truncation toward zero. -/
def goInt (x : ℚ) : Int := if 0 ≤ x then ⌊x⌋ else ⌈x⌉

/-- Assignment m[k] = v on the service's lastRTT map, modelled as an
association list. -/
def setKey (m : List (String × Int)) (k : String) (v : Int) : List (String × Int) :=
  if m.any fun kv => kv.1 = k then m.map fun kv => if kv.1 = k then (k, v) else kv
  else m ++ [(k, v)]

/-- The mutable service fields touched by a measurement cycle
(src/service.go:18-29): the lastRTT map and the activeHosts counter. -/
structure ServiceState where
  lastRTT : List (String × Int)
  activeHosts : Nat
deriving DecidableEq

/-- Trace of adjustCakeRTT (src/service.go:346-381): the updated state (the
"final" lastRTT entry), the margin-adjusted RTT in fractional milliseconds,
its truncation to integer microseconds, and the tc invocations
(updateInterfaceRTT), one per configured interface. -/
structure AdjustTrace where
  state : ServiceState
  adjustedRTT : ℚ
  rttUs : Int
  tcCalls : List (String × Int)
deriving DecidableEq

/-- Shallow embedding of adjustCakeRTT (src/service.go:346-381): the margin
percentage is applied to the target RTT, the result is converted to integer
microseconds (the one place where unit conversion happens), and the converted
value is handed to tc for the download and upload interfaces when they are
non-empty. -/
def adjustCakeRTT (cfg : Config) (targetRTTMs : ℚ) (s : ServiceState) : AdjustTrace :=
  let adjusted := targetRTTMs * (1 + (cfg.rttMarginPercent : ℚ) / 100)
  let rttUs := goInt (adjusted * 1000)
  { state := ⟨setKey s.lastRTT "final" (goInt adjusted), s.activeHosts⟩
    adjustedRTT := adjusted
    rttUs := rttUs
    tcCalls :=
      (if cfg.dlInterface ≠ "" then [(cfg.dlInterface, rttUs)] else []) ++
      (if cfg.ulInterface ≠ "" then [(cfg.ulInterface, rttUs)] else []) }

/-- Trace of one measurement cycle: the final service state, the hosts handed
to the prober, the RTT values passed to adjustCakeRTT (the shaping-adjustment
boundary), the tc invocations, and the levels of the log entries the cycle
itself adds (logging nested inside the measurement and adjustment calls is
omitted). -/
structure CycleTrace where
  state : ServiceState
  probed : List String
  adjustCalls : List ℚ
  tcCalls : List (String × Int)
  logLevels : List String
deriving DecidableEq

/-- Shallow embedding of performRTTMeasurementCycle (src/service.go:107-155).
hostsResult abstracts the outcome of extractHostsFromConntrack. On provider
failure the cycle logs an error and returns untouched. Otherwise, with at
least minHosts discovered hosts the whole list is probed via measureRTTTCP:
on measurement failure the default RTT is used and the partial alive count
recorded, on success the measured RTT is recorded and forwarded. With too few
hosts probing is skipped, the default RTT is used and the discovered host
count recorded. Every non-skipped path calls adjustCakeRTT exactly once
(shouldUpdate is the constant true in the source). -/
def performRTTMeasurementCycle (cfg : Config) (probe : String → Except String ℚ)
    (hostsResult : Except String (List String)) (s : ServiceState) : CycleTrace :=
  match hostsResult with
  | .error _ => ⟨s, [], [], [], ["ERROR"]⟩
  | .ok hosts =>
    let defaultRTT : ℚ := (cfg.defaultRTTMs : ℚ)
    if cfg.minHosts ≤ hosts.length then
      let m := measureRTTTCP cfg.minHosts probe hosts
      match m.err with
      | some _ =>
        let s1 : ServiceState := ⟨setKey s.lastRTT "default" (goInt defaultRTT), m.alive⟩
        let a := adjustCakeRTT cfg defaultRTT s1
        ⟨a.state, hosts, [defaultRTT], a.tcCalls, ["DEBUG", "DEBUG"]⟩
      | none =>
        let s1 : ServiceState := ⟨setKey s.lastRTT "measured" (goInt m.rtt), m.alive⟩
        let a := adjustCakeRTT cfg m.rtt s1
        ⟨a.state, hosts, [m.rtt], a.tcCalls, ["DEBUG", "DEBUG"]⟩
    else
      let s1 : ServiceState := ⟨setKey s.lastRTT "default" (goInt defaultRTT), hosts.length⟩
      let a := adjustCakeRTT cfg defaultRTT s1
      ⟨a.state, [], [defaultRTT], a.tcCalls, ["DEBUG", "DEBUG"]⟩

/-- C4: on a cycle whose host provider answered, three behaviours. Too few
hosts: probing is skipped, the default RTT is forwarded, and the discovered
host count is still recorded. Probing runs but aggregation fails: the default
RTT is forwarded and the partial success count recorded. Probing succeeds:
the measured RTT is the value forwarded to the shaping adjustment. -/
theorem performRTTMeasurementCycle_policy (cfg : Config)
    (probe : String → Except String ℚ) (hosts : List String) (s : ServiceState) :
    (hosts.length < cfg.minHosts →
      (performRTTMeasurementCycle cfg probe (.ok hosts) s).probed = [] ∧
      (performRTTMeasurementCycle cfg probe (.ok hosts) s).adjustCalls
        = [(cfg.defaultRTTMs : ℚ)] ∧
      (performRTTMeasurementCycle cfg probe (.ok hosts) s).state.activeHosts
        = hosts.length) ∧
    (cfg.minHosts ≤ hosts.length →
      (measureRTTTCP cfg.minHosts probe hosts).err ≠ none →
      (performRTTMeasurementCycle cfg probe (.ok hosts) s).adjustCalls
        = [(cfg.defaultRTTMs : ℚ)] ∧
      (performRTTMeasurementCycle cfg probe (.ok hosts) s).state.activeHosts
        = (measureRTTTCP cfg.minHosts probe hosts).alive) ∧
    (cfg.minHosts ≤ hosts.length →
      (measureRTTTCP cfg.minHosts probe hosts).err = none →
      (performRTTMeasurementCycle cfg probe (.ok hosts) s).adjustCalls
        = [(measureRTTTCP cfg.minHosts probe hosts).rtt] ∧
      (performRTTMeasurementCycle cfg probe (.ok hosts) s).state.activeHosts
        = (measureRTTTCP cfg.minHosts probe hosts).alive) := by
  refine ⟨fun h => ?_, fun h1 h2 => ?_, fun h1 h2 => ?_⟩
  · simp only [performRTTMeasurementCycle]
    rw [if_neg (by omega)]
    exact ⟨rfl, rfl, rfl⟩
  · rcases Option.ne_none_iff_exists.mp h2 with ⟨e, he⟩
    simp only [performRTTMeasurementCycle]
    rw [if_pos h1, ← he]
    exact ⟨rfl, rfl⟩
  · simp only [performRTTMeasurementCycle]
    rw [if_pos h1, h2]
    exact ⟨rfl, rfl⟩

/-- Configuration used by the concrete cycle witnesses: minHosts 3 so that the
mock probe's two successes are insufficient, default RTT 100ms, 10 percent
margin, both interfaces configured. -/
def cfgWitness : Config :=
  ⟨3, 100, 10, 100, "ifb-wan", "wan"⟩

/-- Initial state used by the concrete cycle witnesses. -/
def sWitness : ServiceState := ⟨[], 0⟩

/-- Witness for C4 covering all three behaviours on concrete inputs: one host
is fewer than minHosts 3; three hosts with only two responders fail
aggregation; and with minHosts 1 the measurement succeeds. -/
theorem performRTTMeasurementCycle_policy_witness :
    ((["h1"] : List String).length < cfgWitness.minHosts ∧
     ((performRTTMeasurementCycle cfgWitness mockProbe (.ok ["h1"]) sWitness).probed = [] ∧
      (performRTTMeasurementCycle cfgWitness mockProbe (.ok ["h1"]) sWitness).adjustCalls
        = [(cfgWitness.defaultRTTMs : ℚ)] ∧
      (performRTTMeasurementCycle cfgWitness mockProbe (.ok ["h1"]) sWitness).state.activeHosts
        = (["h1"] : List String).length)) ∧
    (cfgWitness.minHosts ≤ (["h1", "h2", "h3"] : List String).length ∧
     (measureRTTTCP cfgWitness.minHosts mockProbe ["h1", "h2", "h3"]).err ≠ none ∧
     ((performRTTMeasurementCycle cfgWitness mockProbe (.ok ["h1", "h2", "h3"]) sWitness).adjustCalls
        = [(cfgWitness.defaultRTTMs : ℚ)] ∧
      (performRTTMeasurementCycle cfgWitness mockProbe (.ok ["h1", "h2", "h3"]) sWitness).state.activeHosts
        = (measureRTTTCP cfgWitness.minHosts mockProbe ["h1", "h2", "h3"]).alive)) ∧
    ((⟨1, 100, 10, 100, "ifb-wan", "wan"⟩ : Config).minHosts
        ≤ (["h1", "h2", "h3"] : List String).length ∧
     (measureRTTTCP (⟨1, 100, 10, 100, "ifb-wan", "wan"⟩ : Config).minHosts mockProbe
        ["h1", "h2", "h3"]).err = none ∧
     ((performRTTMeasurementCycle (⟨1, 100, 10, 100, "ifb-wan", "wan"⟩ : Config) mockProbe
        (.ok ["h1", "h2", "h3"]) sWitness).adjustCalls
        = [(measureRTTTCP (⟨1, 100, 10, 100, "ifb-wan", "wan"⟩ : Config).minHosts mockProbe
            ["h1", "h2", "h3"]).rtt] ∧
      (performRTTMeasurementCycle (⟨1, 100, 10, 100, "ifb-wan", "wan"⟩ : Config) mockProbe
        (.ok ["h1", "h2", "h3"]) sWitness).state.activeHosts
        = (measureRTTTCP (⟨1, 100, 10, 100, "ifb-wan", "wan"⟩ : Config).minHosts mockProbe
            ["h1", "h2", "h3"]).alive)) :=
  ⟨⟨by decide,
    (performRTTMeasurementCycle_policy cfgWitness mockProbe ["h1"] sWitness).1 (by decide)⟩,
   ⟨by decide, by decide,
    (performRTTMeasurementCycle_policy cfgWitness mockProbe ["h1", "h2", "h3"] sWitness).2.1
      (by decide) (by decide)⟩,
   ⟨by decide, by decide,
    (performRTTMeasurementCycle_policy ⟨1, 100, 10, 100, "ifb-wan", "wan"⟩ mockProbe
      ["h1", "h2", "h3"] sWitness).2.2 (by decide) (by decide)⟩⟩

/-- Every tc invocation emitted by adjustCakeRTT carries the margin-adjusted
target converted to integer microseconds. -/
lemma adjustCakeRTT_tcCalls (cfg : Config) (r : ℚ) (s : ServiceState) :
    (adjustCakeRTT cfg r s).tcCalls.map Prod.snd
      = List.replicate (adjustCakeRTT cfg r s).tcCalls.length
          (goInt (r * (1 + (cfg.rttMarginPercent : ℚ) / 100) * 1000)) := by
  by_cases hdl : cfg.dlInterface = "" <;> by_cases hul : cfg.ulInterface = "" <;>
    simp [adjustCakeRTT, hdl, hul, List.replicate]

/-- C5: on every provider-successful cycle the shaping-adjustment boundary is
entered exactly once, and every value handed to the external tc adjuster is
the chosen RTT r with the margin applied, r * (1 + margin/100), truncated to
integer microseconds; the microsecond conversion happens only at this
boundary (the cycle itself carries fractional milliseconds). -/
theorem performRTTMeasurementCycle_unit_conversion (cfg : Config)
    (probe : String → Except String ℚ) (hosts : List String) (s : ServiceState) :
    (performRTTMeasurementCycle cfg probe (.ok hosts) s).adjustCalls.length = 1 ∧
    (performRTTMeasurementCycle cfg probe (.ok hosts) s).tcCalls.map Prod.snd
      = List.replicate
          (performRTTMeasurementCycle cfg probe (.ok hosts) s).tcCalls.length
          (goInt ((performRTTMeasurementCycle cfg probe (.ok hosts) s).adjustCalls.headI
            * (1 + (cfg.rttMarginPercent : ℚ) / 100) * 1000)) := by
  by_cases hlen : cfg.minHosts ≤ hosts.length
  · cases herr : (measureRTTTCP cfg.minHosts probe hosts).err with
    | none =>
      simp only [performRTTMeasurementCycle]
      rw [if_pos hlen, herr]
      exact ⟨rfl, adjustCakeRTT_tcCalls cfg (measureRTTTCP cfg.minHosts probe hosts).rtt
        ⟨setKey s.lastRTT "measured" (goInt (measureRTTTCP cfg.minHosts probe hosts).rtt),
         (measureRTTTCP cfg.minHosts probe hosts).alive⟩⟩
    | some e =>
      simp only [performRTTMeasurementCycle]
      rw [if_pos hlen, herr]
      exact ⟨rfl, adjustCakeRTT_tcCalls cfg (cfg.defaultRTTMs : ℚ)
        ⟨setKey s.lastRTT "default" (goInt (cfg.defaultRTTMs : ℚ)),
         (measureRTTTCP cfg.minHosts probe hosts).alive⟩⟩
  · simp only [performRTTMeasurementCycle]
    rw [if_neg hlen]
    exact ⟨rfl, adjustCakeRTT_tcCalls cfg (cfg.defaultRTTMs : ℚ)
      ⟨setKey s.lastRTT "default" (goInt (cfg.defaultRTTMs : ℚ)), hosts.length⟩⟩

/-- C7: when the host provider fails, the cycle is skipped entirely: no host
is probed, no shaping adjustment or tc call is issued, the lastRTT map and
activeHosts counter are untouched, and one error-level log entry is added.
Each tick calls the cycle afresh, so the next tick retries independently. -/
theorem performRTTMeasurementCycle_provider_failure (cfg : Config)
    (probe : String → Except String ℚ) (e : String) (s : ServiceState) :
    (performRTTMeasurementCycle cfg probe (.error e) s).state = s ∧
    (performRTTMeasurementCycle cfg probe (.error e) s).probed = [] ∧
    (performRTTMeasurementCycle cfg probe (.error e) s).adjustCalls = [] ∧
    (performRTTMeasurementCycle cfg probe (.error e) s).tcCalls = [] ∧
    (performRTTMeasurementCycle cfg probe (.error e) s).logLevels = ["ERROR"] :=
  ⟨rfl, rfl, rfl, rfl, rfl⟩

/-- A log entry as stored in the service's recent-log buffer
(src/service.go:31-36); the timestamp is irrelevant to the buffer policy and
is folded into the message here. -/
structure LogEntry where
  level : String
  message : String
deriving DecidableEq

/-- Shallow embedding of AddLog (src/service.go:392-408): append the entry,
then drop the single oldest entry whenever the buffer exceeds 100. -/
def addLog (logs : List LogEntry) (e : LogEntry) : List LogEntry :=
  let l := logs ++ [e]
  if 100 < l.length then l.drop 1 else l

/-- Shallow embedding of GetRecentLogs (src/service.go:411-419): the Go code
copies the buffer into a fresh slice and returns it; in a pure embedding the
copy is contents-equal to the buffer, and the impossibility of mutating the
internal buffer through the returned slice is a Go memory fact carried by the
copy. -/
def getRecentLogs (logs : List LogEntry) : List LogEntry := logs

/-- C9: starting from a buffer within the 100-entry bound, every addLog leaves
at most 100 entries; an insertion into a full buffer drops exactly the oldest
entry; below the bound the entry is appended unchanged; the buffer is always
a suffix of the insertion sequence (most recent entries in insertion order);
and getRecentLogs returns exactly the buffer's contents. -/
theorem addLog_bounded (logs : List LogEntry) (e : LogEntry)
    (hinv : logs.length ≤ 100) :
    (addLog logs e).length ≤ 100 ∧
    (logs.length = 100 → addLog logs e = logs.tail ++ [e]) ∧
    (logs.length < 100 → addLog logs e = logs ++ [e]) ∧
    (addLog logs e).IsSuffix (logs ++ [e]) ∧
    getRecentLogs (addLog logs e) = addLog logs e := by
  by_cases hfull : 100 < (logs ++ [e]).length
  · have hlen : logs.length = 100 := by
      simp only [List.length_append, List.length_singleton] at hfull
      omega
    have heq : addLog logs e = (logs ++ [e]).drop 1 := by
      rw [addLog, if_pos hfull]
    have hdrop : (logs ++ [e]).drop 1 = logs.tail ++ [e] := by
      rw [List.drop_append_of_le_length (by omega), List.drop_one]
    refine ⟨?_, fun _ => by rw [heq, hdrop], fun hlt => by omega, ?_, rfl⟩
    · rw [heq]
      simp [hlen]
    · rw [heq]
      exact List.drop_suffix 1 _
  · have heq : addLog logs e = logs ++ [e] := by
      rw [addLog, if_neg hfull]
    simp only [List.length_append, List.length_singleton] at hfull
    refine ⟨by rw [heq]; simp; omega, fun h100 => by omega, fun _ => heq, ?_, rfl⟩
    rw [heq]

/-- Witness for C9 at the empty buffer: adding one entry keeps the bound. -/
theorem addLog_bounded_witness :
    ([] : List LogEntry).length ≤ 100 ∧
    ((addLog [] ⟨"INFO", "starting"⟩).length ≤ 100 ∧
     (([] : List LogEntry).length = 100 →
        addLog [] ⟨"INFO", "starting"⟩ = ([] : List LogEntry).tail ++ [⟨"INFO", "starting"⟩]) ∧
     (([] : List LogEntry).length < 100 →
        addLog [] ⟨"INFO", "starting"⟩ = [] ++ [⟨"INFO", "starting"⟩]) ∧
     (addLog [] ⟨"INFO", "starting"⟩).IsSuffix ([] ++ [⟨"INFO", "starting"⟩]) ∧
     getRecentLogs (addLog [] ⟨"INFO", "starting"⟩) = addLog [] ⟨"INFO", "starting"⟩) :=
  ⟨by decide, addLog_bounded [] ⟨"INFO", "starting"⟩ (by decide)⟩

/-- A parsed IP address in the 16-byte form produced by Go's net.ParseIP: a
v4 address carries its four octets (bytes 12 to 15 of the 16-byte form, the
ones isLANAddress indexes), a v6 address its 16 bytes. -/
inductive IPAddr where
  | v4 (a b c d : Nat) : IPAddr
  | v6 (bytes : List Nat) : IPAddr
deriving DecidableEq

/-- Membership in 10.0.0.0/8 (src/service.go:214-216). -/
def isPrivate10 (a : Nat) : Bool := a == 10

/-- Membership in 172.16.0.0/12 (src/service.go:217-220). -/
def isPrivate172 (a b : Nat) : Bool := a == 172 && decide (16 ≤ b) && decide (b ≤ 31)

/-- Membership in 192.168.0.0/16 (src/service.go:221-224). -/
def isPrivate192 (a b : Nat) : Bool := a == 192 && b == 168

/-- Membership in the link-local range 169.254.0.0/16 (src/service.go:225-228). -/
def isLinkLocalV4 (a b : Nat) : Bool := a == 169 && b == 254

/-- Membership in the loopback range 127.0.0.0/8 (src/service.go:229-232). -/
def isLoopbackV4 (a : Nat) : Bool := a == 127

/-- Multicast and reserved first octets, 224 and above (src/service.go:233-236). -/
def isMulticastOrReservedV4 (a : Nat) : Bool := decide (224 ≤ a)

/-- Go net.IP.IsLoopback on a 16-byte v6 address: equality with ::1. -/
def isLoopbackV6 (bytes : List Nat) : Bool :=
  bytes == [0, 0, 0, 0, 0, 0, 0, 0, 0, 0, 0, 0, 0, 0, 0, 1]

/-- Go net.IP.IsLinkLocalUnicast on a v6 address: fe80::/10, that is first
byte 0xfe and top two bits of the second byte 10 (the mask test
b and 0xc0 == 0x80 expressed arithmetically). -/
def isLinkLocalUnicastV6 (bytes : List Nat) : Bool :=
  bytes.headI == 0xfe && (bytes.getD 1 0) / 64 % 4 == 2

/-- Go net.IP.IsLinkLocalMulticast on a v6 address: first byte 0xff and low
nibble of the second byte 2 (the mask test b and 0x0f == 0x02). -/
def isLinkLocalMulticastV6 (bytes : List Nat) : Bool :=
  bytes.headI == 0xff && (bytes.getD 1 0) % 16 == 2

/-- Membership in the unique-local range fc00::/7 (src/service.go:243-246):
first byte 0xfc or 0xfd. -/
def isUniqueLocalV6 (bytes : List Nat) : Bool :=
  bytes.headI == 0xfc || bytes.headI == 0xfd

/-- The classification body of isLANAddress (src/service.go:212-249) on a
parsed address: the disjunction of the private, link-local, loopback and
multicast/reserved checks for v4, and of the loopback, link-local and
unique-local checks for v6. -/
def isLANIP : IPAddr → Bool
  | .v4 a b _ _ =>
    isPrivate10 a || isPrivate172 a b || isPrivate192 a b || isLinkLocalV4 a b ||
    isLoopbackV4 a || isMulticastOrReservedV4 a
  | .v6 bytes =>
    isLoopbackV6 bytes || isLinkLocalUnicastV6 bytes ||
    isLinkLocalMulticastV6 bytes || isUniqueLocalV6 bytes

/-- Shallow embedding of isLANAddress (src/service.go:206-250); parse
abstracts net.ParseIP, returning none exactly on strings that do not parse
as an IP address, in which case the address is treated as LAN. -/
def isLANAddress (parse : String → Option IPAddr) (s : String) : Bool :=
  match parse s with
  | none => true
  | some ip => isLANIP ip

/-- The filtering step of extractHostsFromConntrack (src/service.go:165-202):
dsts are the destination addresses already pulled from ESTABLISHED conntrack
lines by the regex; a destination is admitted only if it is not a LAN address,
the set semantics of the Go host map are rendered by dedup, and the result is
capped at maxHosts. -/
def extractHostsFromConntrack (parse : String → Option IPAddr) (maxHosts : Nat)
    (dsts : List String) : List String :=
  ((dsts.filter fun d => !isLANAddress parse d).dedup).take maxHosts

/-- C10: a string that does not parse as an IP address is classified as LAN,
and consequently every host admitted by extractHostsFromConntrack is
classified non-LAN: it parses as an IP address and that address fails every
private, link-local, loopback and multicast/reserved check. -/
theorem extractHosts_only_public (parse : String → Option IPAddr)
    (maxHosts : Nat) (dsts : List String) (s h : String) (ip : IPAddr)
    (hmem : h ∈ extractHostsFromConntrack parse maxHosts dsts) :
    (parse s = none → isLANAddress parse s = true) ∧
    isLANAddress parse h = false ∧
    parse h ≠ none ∧
    (parse h = some ip → isLANIP ip = false) := by
  have hfilter : h ∈ dsts.filter fun d => !isLANAddress parse d := by
    have h1 := List.take_subset maxHosts _ hmem
    exact List.mem_dedup.mp h1
  have hlan : isLANAddress parse h = false := by
    have h2 := (List.mem_filter.mp hfilter).2
    simpa using h2
  refine ⟨fun hnone => by simp [isLANAddress, hnone], hlan, ?_, fun hip => ?_⟩
  · intro hnone
    rw [isLANAddress, hnone] at hlan
    exact absurd hlan (by simp)
  · rw [isLANAddress, hip] at hlan
    exact hlan

/-- The parse table used by the C10 witness: one public v4 address; any other
string, including the malformed candidate and the textual private address, is
unparsed. -/
def parseWitness : String → Option IPAddr := fun t =>
  if t = "8.8.8.8" then some (.v4 8 8 8 8) else none

/-- Witness for C10: from candidates containing a malformed string, only the
public address is admitted, and the theorem instantiates on it. -/
theorem extractHosts_only_public_witness :
    "8.8.8.8" ∈ extractHostsFromConntrack parseWitness 100 ["8.8.8.8", "bogus"] ∧
    ((parseWitness "bogus" = none → isLANAddress parseWitness "bogus" = true) ∧
     isLANAddress parseWitness "8.8.8.8" = false ∧
     parseWitness "8.8.8.8" ≠ none ∧
     (parseWitness "8.8.8.8" = some (.v4 8 8 8 8) → isLANIP (.v4 8 8 8 8) = false)) :=
  ⟨by decide,
    extractHosts_only_public parseWitness 100 ["8.8.8.8", "bogus"] "bogus" "8.8.8.8"
      (.v4 8 8 8 8) (by decide)⟩

/-- Sanity check of the classifier on concrete addresses: the private,
link-local, loopback, multicast and unique-local ranges are LAN; a public v4
address and a public v6 first byte are not. -/
theorem isLANIP_range_vectors :
    isLANIP (.v4 10 1 2 3) = true ∧
    isLANIP (.v4 172 16 0 1) = true ∧
    isLANIP (.v4 172 15 0 1) = false ∧
    isLANIP (.v4 192 168 1 1) = true ∧
    isLANIP (.v4 169 254 0 5) = true ∧
    isLANIP (.v4 127 0 0 1) = true ∧
    isLANIP (.v4 224 0 0 1) = true ∧
    isLANIP (.v4 8 8 4 4) = false ∧
    isLANIP (.v6 [0, 0, 0, 0, 0, 0, 0, 0, 0, 0, 0, 0, 0, 0, 0, 1]) = true ∧
    isLANIP (.v6 (0xfe :: 0x80 :: List.replicate 14 0)) = true ∧
    isLANIP (.v6 (0xff :: 0x02 :: List.replicate 14 0)) = true ∧
    isLANIP (.v6 (0xfd :: 0x00 :: List.replicate 14 0)) = true ∧
    isLANIP (.v6 (0x20 :: 0x01 :: List.replicate 14 0)) = false := by decide

/-- Comparison by key on store entries. -/
def keyLE {K A : Type} [LinearOrder K] (x y : K × A) : Prop := x.1 ≤ y.1

/-- Strict comparison by key on store entries. -/
def keyLT {K A : Type} [LinearOrder K] (x y : K × A) : Prop := x.1 < y.1

instance {K A : Type} [LinearOrder K] : DecidableRel (keyLE (K := K) (A := A)) :=
  fun x y => inferInstanceAs (Decidable (x.1 ≤ y.1))

instance {K A : Type} [LinearOrder K] : IsTotal (K × A) keyLE :=
  ⟨fun x y => le_total x.1 y.1⟩

instance {K A : Type} [LinearOrder K] : IsTrans (K × A) keyLE :=
  ⟨fun _ _ _ h1 h2 => le_trans h1 h2⟩

instance {K A : Type} [LinearOrder K] : IsAntisymm (K × A) keyLT :=
  ⟨fun _ _ h1 h2 => (lt_asymm h1 h2).elim⟩

/-- Modelled from the spec: Snapshot of the Bounded Ring Store (spec section
4.1), whose implementation is missing from the sources. Per the spec words,
Snapshot sorts the tracked entries by key and takes the trailing maxEntries
window, so that the result is deterministic even though the entries live in
an unordered map; the entries argument stands for the arbitrary order in
which the underlying map enumerates them. The key type is any linear order;
the service instantiates it with strings under their lexicographic order. -/
def snapshotStore {K A : Type} [LinearOrder K] (maxEntries : Nat)
    (entries : List (K × A)) : List (K × A) :=
  (entries.insertionSort keyLE).drop
    ((entries.insertionSort keyLE).length - maxEntries)

/-- Emptying the key list of a sorted entry list of duplicates upgrades it to
a strictly sorted one. -/
lemma sorted_key_strict {K A : Type} [LinearOrder K] {l : List (K × A)}
    (hs : l.Sorted keyLE) (hnd : (l.map Prod.fst).Nodup) :
    l.Sorted keyLT := by
  have hnd2 : l.Pairwise fun x y => x.1 ≠ y.1 := List.pairwise_map.mp hnd
  exact (hs.and hnd2).imp fun h => lt_of_le_of_ne h.1 h.2

/-- C8: on a store tracking more than maxEntries entries with pairwise
distinct keys, Snapshot does not depend on the enumeration order of the
underlying map: any two enumerations of the same entries produce the same
window, the window has exactly maxEntries entries, and it is the trailing
window of the key-sorted entry list. -/
theorem snapshotStore_deterministic {K A : Type} [LinearOrder K]
    (maxEntries : Nat) (l1 l2 : List (K × A))
    (hperm : l1.Perm l2) (hnd : (l1.map Prod.fst).Nodup)
    (hover : maxEntries < l1.length) :
    snapshotStore maxEntries l1 = snapshotStore maxEntries l2 ∧
    (snapshotStore maxEntries l1).length = maxEntries ∧
    (snapshotStore maxEntries l1).IsSuffix (l1.insertionSort keyLE) := by
  have hsorteq : l1.insertionSort keyLE = l2.insertionSort keyLE := by
    have hp : (l1.insertionSort keyLE).Perm (l2.insertionSort keyLE) :=
      ((List.perm_insertionSort keyLE l1).trans hperm).trans
        (List.perm_insertionSort keyLE l2).symm
    have hnd1 : ((l1.insertionSort keyLE).map Prod.fst).Nodup :=
      (((List.perm_insertionSort keyLE l1).map Prod.fst).nodup_iff).mpr hnd
    have hnd2 : ((l2.insertionSort keyLE).map Prod.fst).Nodup :=
      (hp.map Prod.fst).symm.nodup_iff.mpr hnd1
    exact List.eq_of_perm_of_sorted hp
      (sorted_key_strict (List.sorted_insertionSort keyLE l1) hnd1)
      (sorted_key_strict (List.sorted_insertionSort keyLE l2) hnd2)
  have hlen : (l1.insertionSort keyLE).length = l1.length :=
    (List.perm_insertionSort keyLE l1).length_eq
  refine ⟨by rw [snapshotStore, snapshotStore, hsorteq], ?_, ?_⟩
  · rw [snapshotStore, List.length_drop]
    omega
  · exact List.drop_suffix _ _

/-- Witness for C8: two enumeration orders of the same three-entry
over-capacity store produce the identical two-entry trailing window. -/
theorem snapshotStore_deterministic_witness :
    (([(3, 30), (1, 10), (2, 20)] : List (Nat × Nat)).Perm
      [(1, 10), (2, 20), (3, 30)]) ∧
    ((([(3, 30), (1, 10), (2, 20)] : List (Nat × Nat)).map Prod.fst).Nodup) ∧
    (2 < ([(3, 30), (1, 10), (2, 20)] : List (Nat × Nat)).length) ∧
    (snapshotStore 2 ([(3, 30), (1, 10), (2, 20)] : List (Nat × Nat))
       = snapshotStore 2 ([(1, 10), (2, 20), (3, 30)] : List (Nat × Nat)) ∧
     (snapshotStore 2 ([(3, 30), (1, 10), (2, 20)] : List (Nat × Nat))).length = 2 ∧
     (snapshotStore 2 ([(3, 30), (1, 10), (2, 20)] : List (Nat × Nat))).IsSuffix
       (([(3, 30), (1, 10), (2, 20)] : List (Nat × Nat)).insertionSort keyLE)) :=
  ⟨by decide, by decide, by decide,
    snapshotStore_deterministic 2 [(3, 30), (1, 10), (2, 20)] [(1, 10), (2, 20), (3, 30)]
      (by decide) (by decide) (by decide)⟩

/-- Sanity check: the trailing window of the over-capacity store holds the
two largest keys in ascending order. -/
theorem snapshotStore_window_vector :
    snapshotStore 2 ([(3, 30), (1, 10), (2, 20)] : List (Nat × Nat)) = [(2, 20), (3, 30)] := by
  decide

end CakeAutoRTT
